import Mathlib

/-!
Shallow embedding of the access-control package (`access.go`): API access
grants, token issuance over a header/cookie transport, the pending/active
credential store, and the authorization gate.

External collaborators are modeled as parameters or simple total functions:
- password hashing (`user.New` / `user.IsUser`) is parameterized by a hash
  function `hashFn : String → String → String` (password, salt ↦ hash);
- the token codec (`jwt.New`) is modeled as the identity on claim sets: a
  signed token on the issuance side is represented by its claim list;
- on the verification side tokens are opaque strings and `jwt.Passes` /
  `jwt.GetClaims` are parameters;
- the bolt store is a pair of association lists (active grants, pending
  keys); both buckets exist (they are created at package init);
- `time.Now` is an integer clock in seconds, so `time.Time.Unix` is the
  identity at this granularity.
-/

namespace Access

/-- A claim value stored in a JWT claim set (`map[string]interface{}`). -/
inductive Cv where
  | str (s : String)
  | int (n : Int)
deriving DecidableEq, Repr

/-- A claim set; the issuance-side representation of a signed token. -/
abbrev Claims := List (String × Cv)

/-- First-match lookup in a claim set (Go map indexing `claims[k]`). -/
def lookupClaim (k : String) : Claims → Option Cv
  | [] => none
  | (k1, v) :: rest => if k1 = k then some v else lookupClaim k rest

/-- The token transport selected by `Config.TokenStore`
(`reqHeaderOrHTTPCookie` is `interface{}`; the code switches on its dynamic
type: `http.Header`, `http.Cookie`, or anything else). -/
inductive TokenStore where
  | header
  | cookie
  | other
deriving DecidableEq, Repr

/-- `Config` from `access.go`: token lifetime, transport, custom claims,
cookie security flag.  `CustomClaims` is a Go map; it is modeled as an
association list iterated in order. -/
structure Config where
  expireAfter : Int
  customClaims : Claims
  tokenStore : TokenStore
  secureCookie : Bool
deriving DecidableEq, Repr

/-- `APIAccess` from `access.go` (the `Token` field holds the claim set of
the last issued token; empty before issuance). -/
structure APIAccess where
  key : String
  hash : String
  salt : String
  token : Claims
deriving DecidableEq, Repr

/-- The cookie written by `setToken` in cookie mode. -/
structure CookieData where
  name : String
  value : Claims
  expires : Int
  path : String
  httpOnly : Bool
  secure : Bool
deriving DecidableEq, Repr

/-- A write to the response transport: either an
`Authorization: Bearer <token>` header or a `Set-Cookie`. -/
inductive TransportWrite where
  | authHeader (token : Claims)
  | setCookie (c : CookieData)
deriving DecidableEq, Repr

/-- The merge loop of `setToken`: `for k, v := range cfg.CustomClaims`,
failing as soon as a custom key is already present in the claim set built
so far, otherwise inserting it (`claims[k] = v`). -/
def insertClaims (base : Claims) : Claims → Except String Claims
  | [] => .ok base
  | (k, _v) :: rest =>
    if (lookupClaim k base).isSome then
      .error ("custom Config claim [" ++ k ++ "] collides with internal claim [" ++ k
        ++ "], please rename custom claim")
    else insertClaims (base ++ [(k, _v)]) rest

/-- `APIAccess.setToken`: builds the claim set `exp = now + cfg.ExpireAfter`,
`access = a.Key`, merges custom claims (failing on a reserved-name
collision), signs, stores the token on the grant and writes it to the
configured transport; an unrecognized transport is an error with no write. -/
def setToken (now : Int) (cfg : Config) (a : APIAccess) :
    Except String (APIAccess × TransportWrite) :=
  let exp := now + cfg.expireAfter
  let base : Claims := [("exp", .int exp), ("access", .str a.key)]
  match insertClaims base cfg.customClaims with
  | .error e => .error e
  | .ok claims =>
    let a1 := { a with token := claims }
    match cfg.tokenStore with
    | .header => .ok (a1, .authHeader claims)
    | .cookie =>
      .ok (a1, .setCookie ⟨"_apiAccessToken", claims, exp, "/", true, cfg.secureCookie⟩)
    | .other => .error "unrecognized token store"

/-- `user.User` as used by this package (email, hash, salt). -/
structure User where
  email : String
  hash : String
  salt : String
deriving DecidableEq, Repr

/-- Modelled from the spec: the identity-verification collaborator's
`derive(identity, secret) -> CredentialRecord` (`user.New`, not under
`src/`), parameterized by the hash function and the fresh salt it draws. -/
def userNew (hashFn : String → String → String) (salt key password : String) : User :=
  ⟨key, hashFn password salt, salt⟩

/-- Modelled from the spec: the identity-verification collaborator's
`verify(record, secret) -> bool` (`user.IsUser`, not under `src/`): the
supplied password hashed with the stored salt must equal the stored hash. -/
def isUser (hashFn : String → String → String) (u : User) (password : String) : Bool :=
  hashFn password u.salt == u.hash

/-- First-match association lookup (bolt `b.Get` in the access bucket). -/
def lookupRec (k : String) : List (String × User) → Option User
  | [] => none
  | (k1, v) :: rest => if k1 = k then some v else lookupRec k rest

/-- Upsert into the access bucket (bolt `b.Put`). -/
def putRec (k : String) (u : User) : List (String × User) → List (String × User)
  | [] => [(k, u)]
  | (k1, v) :: rest => if k1 = k then (k, u) :: rest else (k1, v) :: putRec k u rest

/-- The database: the `__apiAccess` bucket (active grants, keyed by
identity, holding the marshaled user record) and the `__apiPending` bucket
(pending identities; the stored payload is the constant `"pending"`, so
only membership matters). -/
structure DB where
  access : List (String × User)
  pending : List String
deriving DecidableEq, Repr

/-- `updateGrant`: loads the stored record for `key`, rebuilds the user and
verifies the supplied password against the stored hash+salt; a missing
record surfaces as the unmarshal error, a mismatch as the unauthorized
error.  Never writes. -/
def updateGrant (hashFn : String → String → String) (db : DB) (key password : String) :
    Except String Unit :=
  match lookupRec key db.access with
  | none => .error "failed to get access grant to update grant, unexpected end of JSON input"
  | some rec =>
    let usr : User := ⟨rec.email, rec.hash, rec.salt⟩
    if isUser hashFn usr password then .ok ()
    else .error ("unauthorized attempt to update grant for " ++ rec.email)

deriving instance DecidableEq for Except

/-- Result of `Grant` / `Login`: the returned value-or-error, the database
after the call, and the transport write performed by token issuance (if
any). -/
structure OpOut where
  res : Except String APIAccess
  db : DB
  write : Option TransportWrite
deriving DecidableEq, Repr

/-- The `APIAccess` value both `Grant` and `Login` build from the freshly
derived user before issuing a token. -/
def mkAccess (hashFn : String → String → String) (salt key password : String) : APIAccess :=
  let u := userNew hashFn salt key password
  ⟨u.email, u.hash, u.salt, []⟩

/-- `Grant`: validates inputs, derives credentials, issues a token (writing
it to the transport), then runs two store transactions.  The first checks
for an existing grant — delegating to `updateGrant` and aborting without a
`Put` if it fails — and otherwise upserts the new record.  The second
deletes any pending entry and always succeeds; its result is assigned to
the same `err` variable, so the first transaction's error is discarded and
the function returns the second transaction's (nil) error. -/
def Grant (hashFn : String → String → String) (salt : String) (now : Int)
    (db : DB) (key password : String) (cfg : Config) : OpOut :=
  if key = "" then ⟨.error "key must not be empty", db, none⟩
  else if password = "" then ⟨.error "password must not be empty", db, none⟩
  else
    let u := userNew hashFn salt key password
    let a0 : APIAccess := ⟨u.email, u.hash, u.salt, []⟩
    match setToken now cfg a0 with
    | .error e => ⟨.error e, db, none⟩
    | .ok (a, w) =>
      let step1 : Option String × DB :=
        match lookupRec a.key db.access with
        | some _ =>
          match updateGrant hashFn db key password with
          | .error e =>
            (some ("failed to update APIAccess grant for " ++ a.key ++ ", " ++ e), db)
          | .ok _ => (none, { db with access := putRec a.key u db.access })
        | none => (none, { db with access := putRec a.key u db.access })
      let db1 := step1.2
      let db2 := { db1 with pending := db1.pending.erase a.key }
      let err2 : Option String := none
      match err2 with
      | some e => ⟨.error e, db2, some w⟩
      | none => ⟨.ok a, db2, some w⟩

/-- `Login`: validates inputs, derives credentials, issues a token (writing
it to the transport), then consults the access bucket: a present record is
gated by `updateGrant` (its error is wrapped and returned), a missing
record yields the "User Not Authorized" error.  Never writes the store. -/
def Login (hashFn : String → String → String) (salt : String) (now : Int)
    (db : DB) (key password : String) (cfg : Config) : OpOut :=
  if key = "" then ⟨.error "key must not be empty", db, none⟩
  else if password = "" then ⟨.error "password must not be empty", db, none⟩
  else
    let u := userNew hashFn salt key password
    let a0 : APIAccess := ⟨u.email, u.hash, u.salt, []⟩
    match setToken now cfg a0 with
    | .error e => ⟨.error e, db, none⟩
    | .ok (a, w) =>
      match lookupRec a.key db.access with
      | some _ =>
        match updateGrant hashFn db key password with
        | .error e =>
          ⟨.error ("failed to update APIAccess grant for " ++ a.key ++ ", " ++ e), db, some w⟩
        | .ok _ => ⟨.ok a, db, some w⟩
      | none => ⟨.error "User Not Authorized", db, some w⟩

/-- `Check`: two read-only transactions, one against the access bucket and
one against the pending bucket, each assigned to the same `err` variable;
the assignment from the second transaction overwrites the first
transaction's result, so only the pending check decides the outcome. -/
def Check (db : DB) (key : String) : Except String Unit :=
  if key = "" then .error "key must not be empty"
  else
    let _err1 : Except String Unit :=
      if (lookupRec key db.access).isSome then .error "email already actively in use"
      else .ok ()
    let err2 : Except String Unit :=
      if db.pending.contains key then .error "email already pending in use"
      else .ok ()
    err2

/-- `Pending`: inserts `key` into the pending bucket, failing if it is
already there; the access bucket is not consulted. -/
def Pending (db : DB) (key : String) : Except String Unit × DB :=
  if key = "" then (.error "Pending: key must not be empty", db)
  else if db.pending.contains key then (.error "Pending: email already in use", db)
  else (.ok (), { db with pending := db.pending ++ [key] })

/-- The slice of an incoming `http.Request` this package reads: the cookie
jar (`req.Cookie`), the `Authorization` header value (`""` when the header
is absent, as `Header.Get` returns), and `req.RemoteAddr`. -/
structure Request where
  cookies : List (String × String)
  authHeader : String
  remoteAddr : String
deriving DecidableEq, Repr

/-- First cookie with the given name (`req.Cookie(name)`). -/
def lookupCookie (k : String) : List (String × String) → Option String
  | [] => none
  | (k1, v) :: rest => if k1 = k then some v else lookupCookie k rest

/-- `strings.TrimPrefix`: the string without the leading `pre` when it
starts with `pre`, unchanged otherwise (stated over the character lists so
it computes by kernel reduction). -/
def trimPrefixStr (pre s : String) : String :=
  if pre.data.isPrefixOf s.data then { data := s.data.drop pre.data.length } else s

/-- `getToken`: cookie mode reads the `_apiAccessToken` cookie (a missing
cookie is an error); header mode reads the `Authorization` header and
strips a leading `Bearer ` (unchanged when absent); any other store is an
error. -/
def getToken (req : Request) (ts : TokenStore) : Except String String :=
  match ts with
  | .cookie =>
    match lookupCookie "_apiAccessToken" req.cookies with
    | some v => .ok v
    | none => .error "http: named cookie not present"
  | .header => .ok (trimPrefixStr "Bearer " req.authHeader)
  | .other => .error "unrecognized token store"

/-- `IsGranted`: extract the token from the request (`false` on failure,
logged only) and hand it to the codec's verifier `jwt.Passes`
(parameterized here). -/
def IsGranted (passes : String → Bool) (req : Request) (ts : TokenStore) : Bool :=
  match getToken req ts with
  | .error _ => false
  | .ok token => passes token

/-- `IsOwner`: extract and verify the token as `IsGranted` does, then
compare `claims["access"].(string)` with `key`.  The type assertion is
unchecked: when the claim is absent or not a string the Go code panics,
modeled as `none`; the Boolean outcomes are `some`. -/
def IsOwner (passes : String → Bool) (getClaims : String → Claims)
    (req : Request) (ts : TokenStore) (key : String) : Option Bool :=
  match getToken req ts with
  | .error _ => some false
  | .ok token =>
    if !(passes token) then some false
    else
      match lookupClaim "access" (getClaims token) with
      | some (.str s) => if s ≠ key then some false else some true
      | _ => none

/-- `trimPortFromAddress`: `s[:strings.Index(s, ":")]` when a colon occurs,
`s` otherwise — i.e. everything before the first colon (stated over the
character list so it computes by kernel reduction). -/
def trimPortFromAddress (s : String) : String :=
  if s.data.contains ':' then { data := s.data.takeWhile (fun c => c ≠ ':') } else s

/-- The gate's decision: pass the request to the wrapped handler, or write
the fixed unauthorized status and message (the reflective request dump is a
logging side effect with no bearing on the decision). -/
inductive GateOutcome where
  | admitted
  | rejected (status : Nat) (body : String)
deriving DecidableEq, Repr

/-- `GateKeeper`: admit when the header-borne token verifies, or the
independent session check (`user.IsValid`, parameterized) succeeds, or the
remote address with its port stripped equals the configured
`bind_addr`; otherwise respond 401 `"Please login first..."`. -/
def GateKeeper (passes : String → Bool) (userIsValid : Request → Bool)
    (bindAddr : String) (req : Request) : GateOutcome :=
  if IsGranted passes req .header || userIsValid req
      || trimPortFromAddress req.remoteAddr == bindAddr then
    .admitted
  else
    .rejected 401 "Please login first..."

/-! Concrete instances used to exercise the model. -/

/-- A concrete hash function standing in for the password-derivation
collaborator in concrete runs. -/
def exHash (password salt : String) : String := password ++ "#" ++ salt

/-- A header-transport configuration with a one-hour lifetime and no
custom claims. -/
def exCfg : Config := ⟨3600, [], .header, false⟩

/-- The stored credential record of an active grant for `a@x.com` derived
from secret `pw1` with salt `s0`. -/
def exRec : User := ⟨"a@x.com", exHash "pw1" "s0", "s0"⟩

/-- A database holding exactly one active grant (`a@x.com`) and no pending
reservations. -/
def exDB : DB := ⟨[("a@x.com", exRec)], []⟩

/-! Helper lemmas. -/

theorem lookupClaim_append (k : String) (base l : Claims)
    (h : (lookupClaim k base).isSome = true) :
    lookupClaim k (base ++ l) = lookupClaim k base := by
  induction base with
  | nil => simp [lookupClaim] at h
  | cons p rest ih =>
    obtain ⟨k1, v⟩ := p
    simp only [List.cons_append, lookupClaim]
    by_cases hk : k1 = k
    · simp [hk]
    · simp only [lookupClaim, hk, if_false] at h
      simp [hk, ih h]

theorem insertClaims_ok_lookup (cc : Claims) :
    ∀ base out, insertClaims base cc = .ok out →
      ∀ k, (lookupClaim k base).isSome = true → lookupClaim k out = lookupClaim k base := by
  induction cc with
  | nil =>
    intro base out h k hk
    simp only [insertClaims, Except.ok.injEq] at h
    rw [← h]
  | cons p rest ih =>
    intro base out h k hk
    obtain ⟨k1, v⟩ := p
    simp only [insertClaims] at h
    by_cases h1 : (lookupClaim k1 base).isSome = true
    · simp [h1] at h
    · simp only [h1, if_false] at h
      have hk2 : (lookupClaim k (base ++ [(k1, v)])).isSome = true := by
        rw [lookupClaim_append k base [(k1, v)] hk]; exact hk
      have h2 := ih (base ++ [(k1, v)]) out h k hk2
      rw [h2, lookupClaim_append k base [(k1, v)] hk]

theorem insertClaims_collides (cc : Claims) :
    ∀ base k, (lookupClaim k cc).isSome = true → (lookupClaim k base).isSome = true →
      ∃ e, insertClaims base cc = .error e := by
  induction cc with
  | nil => intro base k hk hb; simp [lookupClaim] at hk
  | cons p rest ih =>
    intro base k hk hb
    obtain ⟨k1, v⟩ := p
    simp only [insertClaims]
    by_cases h1 : (lookupClaim k1 base).isSome = true
    · exact ⟨"custom Config claim [" ++ k1 ++ "] collides with internal claim [" ++ k1
        ++ "], please rename custom claim", by simp [h1]⟩
    · simp only [h1, if_false]
      by_cases hkk : k1 = k
      · exact absurd (hkk ▸ hb) h1
      · simp only [lookupClaim, hkk, if_false] at hk
        have hb2 : (lookupClaim k (base ++ [(k1, v)])).isSome = true := by
          rw [lookupClaim_append k base [(k1, v)] hb]; exact hb
        exact ih (base ++ [(k1, v)]) k hk hb2

theorem setToken_ok_key (now : Int) (cfg : Config) (a a1 : APIAccess) (w : TransportWrite)
    (h : setToken now cfg a = .ok (a1, w)) : a1.key = a.key := by
  simp only [setToken] at h
  split at h
  · simp at h
  · split at h
    · simp only [Except.ok.injEq, Prod.mk.injEq] at h
      rw [← h.1]
    · simp only [Except.ok.injEq, Prod.mk.injEq] at h
      rw [← h.1]
    · simp at h

/-! Claim theorems. -/

/-- C1: on an identity with an existing Active grant, `Grant` called with a
non-empty but incorrect secret does leave the stored record unchanged, but
it does not return an error: the first transaction aborts with the
unauthorized error, the error variable is then reassigned from the second
(always-nil) transaction, and the call returns the fresh `APIAccess` with
a nil error.  The claim that `Grant` returns AuthorizationError fails on
this concrete run. -/
theorem grant_wrong_secret_returns_success :
    isUser exHash exRec "wrong" = false ∧
    (lookupRec "a@x.com" exDB.access).isSome = true ∧
    (Grant exHash "s1" 7 exDB "a@x.com" "wrong" exCfg).db.access = exDB.access ∧
    (Grant exHash "s1" 7 exDB "a@x.com" "wrong" exCfg).res =
      .ok ⟨"a@x.com", exHash "wrong" "s1", "s1",
        [("exp", .int 3607), ("access", .str "a@x.com")]⟩ := by
  decide

/-- C2: `Check` on an identity present only in the Active store returns
success: the active-store conflict found by the first transaction is
overwritten when the error variable is reassigned from the pending-store
transaction, so the claim that `Check` fails with a conflict error in this
case fails on this concrete run. -/
theorem check_active_only_returns_success :
    (lookupRec "a@x.com" exDB.access).isSome = true ∧
    exDB.pending.contains "a@x.com" = false ∧
    Check exDB "a@x.com" = .ok () := by
  decide

/-- C4 counterexample: an identity present in the Active store but not in
the Pending store is accepted by `Pending` and inserted into the Pending
set, so the claim that `Pending` fails with a ConflictError when the
identity is in the Active set is false. -/
theorem pending_ignores_active_counterexample :
    (lookupRec "a@x.com" exDB.access).isSome = true ∧
    exDB.pending.contains "a@x.com" = false ∧
    Pending exDB "a@x.com" = (.ok (), ⟨exDB.access, ["a@x.com"]⟩) := by
  decide

/-- C4 (amended): for every non-empty identity, `Pending` fails with the
conflict error exactly when the identity is already in the Pending set —
the Active set is not consulted — and otherwise appends it to the Pending
set and succeeds, leaving the Active set unchanged. -/
theorem pending_conflicts_only_on_pending (db : DB) (key : String) (hkey : ¬ key = "") :
    (db.pending.contains key = true →
      Pending db key = (.error "Pending: email already in use", db)) ∧
    (db.pending.contains key = false →
      Pending db key = (.ok (), { db with pending := db.pending ++ [key] })) := by
  constructor <;> intro h <;> simp at h <;> simp [Pending, hkey, h]

/-- C4 witness: the amended statement evaluated at a fresh identity over
the one-grant database. -/
theorem pending_conflicts_only_on_pending_witness :
    (exDB.pending.contains "b@x.com" = true →
      Pending exDB "b@x.com" = (.error "Pending: email already in use", exDB)) ∧
    (exDB.pending.contains "b@x.com" = false →
      Pending exDB "b@x.com" = (.ok (), { exDB with pending := exDB.pending ++ ["b@x.com"] })) :=
  pending_conflicts_only_on_pending exDB "b@x.com" (by decide)

/-- C10: a request bearing a token that passes signature verification but
whose claims have no `access` entry makes `IsOwner` hit the unchecked type
assertion `claims["access"].(string)` and panic (modeled as `none`), so
`IsOwner` is not total at the public interface. -/
theorem isOwner_missing_access_claim_is_none :
    IsOwner (fun _ => true) (fun _ => [("exp", .int 99)])
      ⟨[], "Bearer tok7", "10.0.0.1:1234"⟩ .header "a@x.com" = none := by
  decide

/-- C7: `IsOwner` returns `true` exactly when `IsGranted` holds on the same
request and token store and the extracted token carries an `access` claim
equal, as a string and case-sensitively, to the expected identity.  (When
the claim is absent or non-string `IsOwner` panics rather than returning,
so it does not return `true`.) -/
theorem isOwner_true_iff (passes : String → Bool) (getClaims : String → Claims)
    (req : Request) (ts : TokenStore) (key : String) :
    IsOwner passes getClaims req ts key = some true ↔
      (IsGranted passes req ts = true ∧
        ∃ t, getToken req ts = .ok t ∧
          lookupClaim "access" (getClaims t) = some (.str key)) := by
  unfold IsOwner IsGranted
  cases hg : getToken req ts with
  | error e => simp
  | ok t =>
    cases hp : passes t with
    | false => simp [hp]
    | true =>
      simp only [Bool.not_true, Bool.false_eq_true, if_false, true_and]
      cases hc : lookupClaim "access" (getClaims t) with
      | none => simp [hc]
      | some v =>
        cases v with
        | str s =>
          by_cases hs : s = key
          · simp [hc, hs]
          · simp [hc, hs]
        | int n => simp [hc]

/-- C8: the gate admits a request exactly when the header-borne token
verifies, or the independent session check succeeds, or the remote address
with its port stripped equals the trusted bind address; every rejected
request gets the fixed 401 response; and the concrete trusted-origin
request (`RemoteAddr = 127.0.0.1:9000`, no token, bind address
`127.0.0.1`) is admitted. -/
theorem gateKeeper_admits_iff (passes : String → Bool) (userIsValid : Request → Bool)
    (bindAddr : String) (req : Request) :
    (GateKeeper passes userIsValid bindAddr req = .admitted ↔
      (IsGranted passes req .header = true ∨ userIsValid req = true ∨
        trimPortFromAddress req.remoteAddr = bindAddr)) ∧
    (GateKeeper passes userIsValid bindAddr req ≠ .admitted →
      GateKeeper passes userIsValid bindAddr req = .rejected 401 "Please login first...") ∧
    GateKeeper (fun _ => false) (fun _ => false) "127.0.0.1"
      ⟨[], "", "127.0.0.1:9000"⟩ = .admitted := by
  refine ⟨?_, ?_, by decide⟩
  · constructor
    · intro h
      unfold GateKeeper at h
      split at h
      · rename_i hc
        simp only [Bool.or_eq_true, beq_iff_eq] at hc
        tauto
      · exact absurd h (by simp)
    · intro h
      unfold GateKeeper
      have hc : (IsGranted passes req .header || userIsValid req
          || trimPortFromAddress req.remoteAddr == bindAddr) = true := by
        simp only [Bool.or_eq_true, beq_iff_eq]
        tauto
      rw [if_pos hc]
  · intro h
    unfold GateKeeper at h ⊢
    split at h
    · exact absurd rfl h
    · rename_i hc
      rw [if_neg hc]

theorem setToken_ok_token (now : Int) (cfg : Config) (a a1 : APIAccess) (w : TransportWrite)
    (h : setToken now cfg a = .ok (a1, w)) :
    insertClaims [("exp", .int (now + cfg.expireAfter)), ("access", .str a.key)]
        cfg.customClaims = .ok a1.token := by
  simp only [setToken] at h
  cases hi : insertClaims [("exp", Cv.int (now + cfg.expireAfter)), ("access", Cv.str a.key)]
      cfg.customClaims with
  | error e =>
    rw [hi] at h
    simp at h
  | ok claims =>
    rw [hi] at h
    cases hts : cfg.tokenStore
    · rw [hts] at h
      simp only [Except.ok.injEq, Prod.mk.injEq] at h
      rw [← h.1]
    · rw [hts] at h
      simp only [Except.ok.injEq, Prod.mk.injEq] at h
      rw [← h.1]
    · rw [hts] at h
      simp at h

/-- C9: every token `setToken` issues carries an `access` claim equal to
the key of the grant it was issued for and an `exp` claim equal to the
issuance clock plus exactly the configured lifetime, which lies strictly
in the future whenever that lifetime is positive. -/
theorem issued_token_subject_and_exp (now : Int) (cfg : Config) (a a1 : APIAccess)
    (w : TransportWrite) (h : setToken now cfg a = .ok (a1, w)) :
    lookupClaim "access" a1.token = some (.str a.key) ∧
    lookupClaim "exp" a1.token = some (.int (now + cfg.expireAfter)) ∧
    (0 < cfg.expireAfter → now < now + cfg.expireAfter) := by
  have ht := setToken_ok_token now cfg a a1 w h
  have hacc := insertClaims_ok_lookup cfg.customClaims _ _ ht "access" rfl
  have hexp := insertClaims_ok_lookup cfg.customClaims _ _ ht "exp" rfl
  refine ⟨?_, ?_, fun hp => by omega⟩
  · rw [hacc]
    rfl
  · rw [hexp]
    rfl

/-- C9 witness: a concrete issuance over the header transport with a
one-hour lifetime and a custom claim. -/
theorem issued_token_subject_and_exp_witness :
    lookupClaim "access"
        (APIAccess.token ⟨"a@x.com", "h0", "s0",
          [("exp", .int 4600), ("access", .str "a@x.com"), ("role", .str "admin")]⟩) =
      some (.str (APIAccess.key ⟨"a@x.com", "h0", "s0", []⟩)) ∧
    lookupClaim "exp"
        (APIAccess.token ⟨"a@x.com", "h0", "s0",
          [("exp", .int 4600), ("access", .str "a@x.com"), ("role", .str "admin")]⟩) =
      some (.int (1000 + Config.expireAfter ⟨3600, [("role", .str "admin")], .header, false⟩)) ∧
    (0 < Config.expireAfter ⟨3600, [("role", .str "admin")], .header, false⟩ →
      (1000 : Int) < 1000 + Config.expireAfter ⟨3600, [("role", .str "admin")], .header, false⟩) :=
  issued_token_subject_and_exp 1000 ⟨3600, [("role", .str "admin")], .header, false⟩
    ⟨"a@x.com", "h0", "s0", []⟩
    ⟨"a@x.com", "h0", "s0",
      [("exp", .int 4600), ("access", .str "a@x.com"), ("role", .str "admin")]⟩
    (.authHeader [("exp", .int 4600), ("access", .str "a@x.com"), ("role", .str "admin")])
    (by decide)

/-- C3: in `Grant` and `Login`, whenever the inputs are non-empty and token
construction succeeds, the signed token has already been written to the
configured transport before the credential store is consulted: the write is
the one produced by `setToken`, for every store content, including the runs
whose result is an error (unknown identity, wrong secret). -/
theorem transport_write_precedes_store (hashFn : String → String → String)
    (salt : String) (now : Int) (db : DB) (key password : String) (cfg : Config)
    (a : APIAccess) (w : TransportWrite)
    (hkey : ¬ key = "") (hpw : ¬ password = "")
    (h : setToken now cfg (mkAccess hashFn salt key password) = .ok (a, w)) :
    (Grant hashFn salt now db key password cfg).write = some w ∧
    (Login hashFn salt now db key password cfg).write = some w := by
  simp only [mkAccess] at h
  constructor
  · simp only [Grant, if_neg hkey, if_neg hpw, h]
  · simp only [Login, if_neg hkey, if_neg hpw, h]
    cases hl : lookupRec a.key db.access with
    | none => simp
    | some u1 =>
      cases hu : updateGrant hashFn db key password with
      | error e => simp
      | ok v => simp

/-- C3 witness: a concrete `Grant` and `Login` run over the one-grant
database for a fresh identity; the `Login` run returns an error, yet the
transport write has happened. -/
theorem transport_write_precedes_store_witness :
    (Grant exHash "s1" 7 exDB "b@x.com" "pw2" exCfg).write =
      some (.authHeader [("exp", .int 3607), ("access", .str "b@x.com")]) ∧
    (Login exHash "s1" 7 exDB "b@x.com" "pw2" exCfg).write =
      some (.authHeader [("exp", .int 3607), ("access", .str "b@x.com")]) :=
  transport_write_precedes_store exHash "s1" 7 exDB "b@x.com" "pw2" exCfg
    ⟨"b@x.com", exHash "pw2" "s1", "s1", [("exp", .int 3607), ("access", .str "b@x.com")]⟩
    (.authHeader [("exp", .int 3607), ("access", .str "b@x.com")])
    (by decide) (by decide) (by decide)

/-- C5: `Login` on a non-empty identity with no Active grant, with any
non-empty secret and a configuration under which token issuance succeeds,
returns the not-found error (`User Not Authorized`, a non-nil error) and
leaves the store untouched, so it never creates an Active grant. -/
theorem login_unknown_identity (hashFn : String → String → String) (salt : String)
    (now : Int) (db : DB) (key password : String) (cfg : Config)
    (a : APIAccess) (w : TransportWrite)
    (hkey : ¬ key = "") (hpw : ¬ password = "")
    (habs : lookupRec key db.access = none)
    (h : setToken now cfg (mkAccess hashFn salt key password) = .ok (a, w)) :
    (Login hashFn salt now db key password cfg).res = .error "User Not Authorized" ∧
    (Login hashFn salt now db key password cfg).db = db := by
  have hak : a.key = key :=
    setToken_ok_key now cfg (mkAccess hashFn salt key password) a w h
  simp only [mkAccess] at h
  refine ⟨?_, ?_⟩ <;> simp only [Login, if_neg hkey, if_neg hpw, h, hak, habs]

/-- C5 witness: logging in as an identity absent from the one-grant
database fails with the not-found error and leaves the database as it
was. -/
theorem login_unknown_identity_witness :
    (Login exHash "s1" 7 exDB "nobody@x.com" "pw9" exCfg).res =
      .error "User Not Authorized" ∧
    (Login exHash "s1" 7 exDB "nobody@x.com" "pw9" exCfg).db = exDB :=
  login_unknown_identity exHash "s1" 7 exDB "nobody@x.com" "pw9" exCfg
    ⟨"nobody@x.com", exHash "pw9" "s1", "s1",
      [("exp", .int 3607), ("access", .str "nobody@x.com")]⟩
    (.authHeader [("exp", .int 3607), ("access", .str "nobody@x.com")])
    (by decide) (by decide) (by decide) (by decide)

/-- C6: when the custom-claims map holds a key named `exp` or `access`,
token issuance fails for every grant with the collision error — so no
token is produced and no transport write occurs — and `Grant` and `Login`
on non-empty inputs return that error with the store unchanged and no
transport write. -/
theorem reserved_claim_collision (hashFn : String → String → String) (salt : String)
    (now : Int) (db : DB) (key password : String) (cfg : Config)
    (hkey : ¬ key = "") (hpw : ¬ password = "")
    (hcc : (lookupClaim "exp" cfg.customClaims).isSome = true ∨
      (lookupClaim "access" cfg.customClaims).isSome = true) :
    (∀ a : APIAccess, ∃ e, setToken now cfg a = .error e) ∧
    (∃ e, Grant hashFn salt now db key password cfg = ⟨.error e, db, none⟩) ∧
    (∃ e, Login hashFn salt now db key password cfg = ⟨.error e, db, none⟩) := by
  have hset : ∀ a : APIAccess, ∃ e, setToken now cfg a = .error e := by
    intro a
    have hb : ∃ e, insertClaims
        [("exp", Cv.int (now + cfg.expireAfter)), ("access", Cv.str a.key)]
        cfg.customClaims = .error e := by
      rcases hcc with hcc | hcc
      · exact insertClaims_collides cfg.customClaims _ "exp" hcc rfl
      · exact insertClaims_collides cfg.customClaims _ "access" hcc rfl
    obtain ⟨e, he⟩ := hb
    exact ⟨e, by simp only [setToken, he]⟩
  refine ⟨hset, ?_, ?_⟩
  · obtain ⟨e, he⟩ := hset ⟨(userNew hashFn salt key password).email,
      (userNew hashFn salt key password).hash, (userNew hashFn salt key password).salt, []⟩
    exact ⟨e, by simp only [Grant, if_neg hkey, if_neg hpw, he]⟩
  · obtain ⟨e, he⟩ := hset ⟨(userNew hashFn salt key password).email,
      (userNew hashFn salt key password).hash, (userNew hashFn salt key password).salt, []⟩
    exact ⟨e, by simp only [Login, if_neg hkey, if_neg hpw, he]⟩

/-- A configuration whose custom claims reuse the reserved `exp` name. -/
def cfgBad : Config := ⟨3600, [("exp", .int 123)], .header, false⟩

/-- C6 witness: the reserved-claim configuration makes every issuance fail
and makes `Grant` and `Login` over the one-grant database return the error
with no store change and no transport write. -/
theorem reserved_claim_collision_witness :
    (∀ a : APIAccess, ∃ e, setToken 7 cfgBad a = .error e) ∧
    (∃ e, Grant exHash "s1" 7 exDB "a@x.com" "pw1" cfgBad = ⟨.error e, exDB, none⟩) ∧
    (∃ e, Login exHash "s1" 7 exDB "a@x.com" "pw1" cfgBad = ⟨.error e, exDB, none⟩) :=
  reserved_claim_collision exHash "s1" 7 exDB "a@x.com" "pw1" cfgBad
    (by decide) (by decide) (Or.inl (by decide))

end Access
